import Mathlib

/-!
Shallow embedding of the audio capture-and-mix recording engine in
`src/gita/src-tauri/src/audio.rs`, together with theorems checking the
natural-language specification against it.

Modelling conventions:
* 32-bit float samples are modelled as rationals (ℚ).  Every concrete input
  used in a counterexample is exactly representable in `f32` and the
  arithmetic performed on it by the source (multiplication by 32767.0,
  addition of small halves/tenths, comparison with ±1.0) is exact there, so
  the rational model agrees with the `f32` semantics at those points.
* The writer thread's loop (audio.rs lines 463-576) is modelled as a
  fuel-indexed iteration over an explicit `WriterState`; the stop flag, the
  two ring buffers and the shared `Option`-encoder are fields of that state.
* The global registry `ACTIVE_RECORDINGS` is modelled as an association list
  from recording ids to sessions; `HashMap::insert` / `remove` become
  `regInsert` / `regErase`+`regFind`.
* Fallible environment interactions inside `start_recording` (device
  enumeration, config queries, file creation, stream build, stream play) are
  driven by a `StartEnv` record of booleans saying which step succeeds; the
  embedding follows the exact order of the `?`-returns in the source.
-/

/-- Truncation of a rational toward zero.  This is the rounding performed by
Rust's `as i16` cast on an `f32` value (audio.rs line 546-547): the fractional
part is discarded, for negative values as well. -/
def ratTrunc (x : ℚ) : ℤ :=
  if 0 ≤ x then ⌊x⌋ else -⌊-x⌋

/-- Quantization as the source performs it (audio.rs lines 546-547):
`(final * std::i16::MAX as f32) as i16`, i.e. multiply by 32767 and truncate
toward zero.  (No saturation case is needed: the input is already clamped to
[-1, 1] by `mixSample`, so the product lies in [-32767, 32767].) -/
def quantizeSample (x : ℚ) : ℤ :=
  ratTrunc (x * 32767)

/-- Quantization as the specification describes it: `int16 =
round(finalSample * 32767)`, rounding to nearest.  Kept separate from
`quantizeSample` (the source's behaviour) so the two can be compared. -/
def specQuantizeSample (x : ℚ) : ℤ :=
  round (x * 32767)

/-- The additive mix with clipping of audio.rs lines 543-544:
`(mic + loop).max(-1.0).min(1.0)` for one channel. -/
def mixSample (a b : ℚ) : ℚ :=
  min (max (a + b) (-1)) 1

/-- One mixed stereo frame becomes two i16 samples pushed in order: left
first, then right (audio.rs lines 546-547). -/
def frameSamples (f : ℚ × ℚ) : List ℤ :=
  [quantizeSample f.1, quantizeSample f.2]

/-- One source's contribution to a stereo frame, audio.rs lines 506-517 (mic)
and 522-536 (loopback).  Given the source's channel count and its remaining
popped samples:
* an empty list contributes silence and consumes nothing (the outer
  `if idx < len` guard fails);
* a 1-channel source duplicates its next sample to both channels;
* otherwise (treated as 2-channel) two samples are consumed for (L, R) when
  at least two remain (`idx + 1 < len`), and a single leftover sample is
  discarded (`idx = len`) while the contribution stays (0, 0). -/
def popFrame (ch : ℕ) : List ℚ → (ℚ × ℚ) × List ℚ
  | [] => ((0, 0), [])
  | [x] => if ch = 1 then ((x, x), []) else ((0, 0), [])
  | x :: y :: rest => if ch = 1 then ((x, x), y :: rest) else ((x, y), rest)

/-- Fuel-indexed version of the writer's inner mixing loop (audio.rs lines
499-548): while the mic has samples left, or loopback is active and has
samples left, take one frame from each (silence when exhausted), mix with
clipping, and emit the stereo frame.  The fuel only bounds the number of
iterations; `mixFrames` supplies enough fuel that the bound is never hit
(each iteration consumes at least one sample, see
`popFrame_length_lt`/`mixFramesAux_fuel_irrelevant`). -/
def mixFramesAux (micCh : ℕ) (hasLoop : Bool) (loopCh : ℕ) :
    ℕ → List ℚ → List ℚ → List (ℚ × ℚ)
  | 0, _, _ => []
  | fuel + 1, mic, loopb =>
    if mic = [] ∧ (hasLoop = false ∨ loopb = []) then []
    else
      let m := popFrame micCh mic
      let l := if hasLoop then popFrame loopCh loopb else ((0, 0), loopb)
      (mixSample m.1.1 l.1.1, mixSample m.1.2 l.1.2) ::
        mixFramesAux micCh hasLoop loopCh fuel m.2 l.2

/-- The writer's per-iteration mixing loop: pops everything available from
the two sample vectors and produces the list of mixed stereo frames in
order. -/
def mixFrames (micCh : ℕ) (hasLoop : Bool) (loopCh : ℕ)
    (mic loopb : List ℚ) : List (ℚ × ℚ) :=
  mixFramesAux micCh hasLoop loopCh (mic.length + loopb.length + 1) mic loopb

/-- State of the writer thread and the data it shares with the rest of the
session: the stop flag, the contents of the two ring buffers (the writer's
`pop_slice` empties them each iteration, since the `Vec` capacity is the ring
capacity), whether the shared `Option`-wrapped WAV writer is still present,
and the i16 samples written to the encoder so far. -/
structure WriterState where
  stop : Bool
  micBuf : List ℚ
  loopBuf : List ℚ
  encoderOpen : Bool
  written : List ℤ
  deriving Repr, DecidableEq

/-- One iteration of the writer loop body after the stop-flag check
(audio.rs lines 469-575): pop all samples from the mic ring buffer, pop all
from the loopback ring buffer when loopback is active, mix to stereo frames,
quantize, and append to the WAV encoder if it is still present (samples are
dropped when the writer `Option` is already `None`, line 558). -/
def writerIter (micCh : ℕ) (hasLoop : Bool) (loopCh : ℕ)
    (s : WriterState) : WriterState :=
  let frames := mixFrames micCh hasLoop loopCh s.micBuf
    (if hasLoop then s.loopBuf else [])
  let out := frames.flatMap frameSamples
  { s with
    micBuf := []
    loopBuf := if hasLoop then [] else s.loopBuf
    written := if s.encoderOpen then s.written ++ out else s.written }

/-- The writer loop of audio.rs lines 463-576, for a given number of
iterations: at the TOP of every iteration the stop flag is loaded and, if
set, the loop breaks immediately; only otherwise does the body pop, mix and
write. -/
def writerLoop (micCh : ℕ) (hasLoop : Bool) (loopCh : ℕ) :
    ℕ → WriterState → WriterState
  | 0, s => s
  | fuel + 1, s =>
    if s.stop then s
    else writerLoop micCh hasLoop loopCh fuel (writerIter micCh hasLoop loopCh s)

/-- The per-recording state stored in `ACTIVE_RECORDINGS` (audio.rs
`RecordingState`, lines 16-28), restricted to the fields the claims are
about.  `encoder` models the shared `Arc Mutex Option WavWriter` (`some ()` =
writer still present, `none` = already taken); `writerHandle` models whether
the `writer_thread` `JoinHandle` is still present; `micStream` /
`loopStream` model the `Option cpal::Stream` fields. -/
structure Session where
  noteId : String
  filePath : String
  micId : String
  loopbackId : Option String
  stop : Bool
  encoder : Option Unit
  writerHandle : Bool
  micStream : Bool
  loopStream : Bool
  deriving Repr, DecidableEq

/-- Registry lookup: first entry with the given id (the association list
always holds at most one entry per id, like the source's `HashMap`). -/
def regFind (id : String) : List (String × Session) → Option Session
  | [] => none
  | (k, v) :: rest => if k = id then some v else regFind id rest

/-- Registry removal of an id (`HashMap::remove`). -/
def regErase (id : String) : List (String × Session) → List (String × Session)
  | [] => []
  | (k, v) :: rest =>
    if k = id then regErase id rest else (k, v) :: regErase id rest

/-- Registry insertion (`HashMap::insert`): silently replaces any existing
entry under the same key, exactly as audio.rs line 614 does. -/
def regInsert (id : String) (s : Session) (reg : List (String × Session)) :
    List (String × Session) :=
  (id, s) :: regErase id reg

/-- Observable system state threaded through `start_recording` and
`stop_recording`: the `ACTIVE_RECORDINGS` registry, the list of
WAV-file-create events (`hound::WavWriter::create` truncates the file at its
path; each event is recorded here), the number of capture streams built so
far, the rows inserted into the `audio_recordings` database table, and the
number of encoder finalize attempts (each `Option::take` that yields the
writer and calls `finalize`). -/
structure SysState where
  registry : List (String × Session)
  files : List String
  streamsBuilt : ℕ
  dbRows : List String
  finalizeEvents : ℕ
  deriving Repr, DecidableEq

/-- Which fallible environment steps of `start_recording` succeed, in source
order: device enumeration (line 224), non-empty device list (line 265),
default microphone present (line 269), mic name query (line 271), mic config
queries (lines 311-323), the Windows loopback name heuristic finding a
device (lines 284-292), loopback config queries (lines 343-356), output
directory creation (line 383), WAV file creation (line 395), mic stream
build (line 417), loopback stream build (line 424), mic stream play
(line 592), loopback stream play (line 594). -/
structure StartEnv where
  enumerateOk : Bool
  anyInputDevice : Bool
  defaultMicSome : Bool
  micNameOk : Bool
  micConfigOk : Bool
  loopbackFound : Bool
  loopConfigOk : Bool
  createDirOk : Bool
  wavCreateOk : Bool
  micBuildOk : Bool
  loopBuildOk : Bool
  micPlayOk : Bool
  loopPlayOk : Bool
  deriving Repr, DecidableEq

/-- Every step of the environment succeeds (and a loopback device exists). -/
def envAllOk (env : StartEnv) : Bool :=
  env.enumerateOk && env.anyInputDevice && env.defaultMicSome &&
  env.micNameOk && env.micConfigOk && env.loopbackFound &&
  env.loopConfigOk && env.createDirOk && env.wavCreateOk &&
  env.micBuildOk && env.loopBuildOk && env.micPlayOk && env.loopPlayOk

/-- The `RecordingState` value inserted by a successful `start_recording`
(audio.rs lines 600-611): fresh stop flag, encoder present, writer thread
handle present, mic stream stored, loopback stream stored when active. -/
def newSession (noteId recId dir : String) (loopActive : Bool) : Session :=
  { noteId := noteId
    filePath := dir ++ "/" ++ recId ++ ".wav"
    micId := "default-mic"
    loopbackId := if loopActive then some "Stereo Mix" else none
    stop := false
    encoder := some ()
    writerHandle := true
    micStream := true
    loopStream := loopActive }

/-- Shallow embedding of `start_recording` (audio.rs lines 153-618),
keeping the exact order of its fallible steps and state effects.  Note that
there is no duplicate-id check anywhere: the WAV file is created (truncating
any file already at that path) at line 395, streams are built at lines
417/424, `play` is called at lines 592/594, and only then is the session
inserted into `ACTIVE_RECORDINGS` with `HashMap::insert` (line 614), which
replaces any existing entry.  Loopback failures are non-fatal only for the
stream *build* step (lines 429-436); loopback *config* query failures and a
loopback *play* failure propagate as errors. -/
def startRecording (env : StartEnv) (noteId recId dir : String)
    (st : SysState) : Except String String × SysState :=
  if !env.enumerateOk then
    (Except.error "Failed to enumerate input devices", st)
  else if !env.anyInputDevice then
    (Except.error "No input devices found.", st)
  else if !env.defaultMicSome then
    (Except.error "No default microphone input device available", st)
  else if !env.micNameOk then
    (Except.error "Failed to get mic device name", st)
  else if !env.micConfigOk then
    (Except.error "Failed to get default mic config", st)
  else if env.loopbackFound && !env.loopConfigOk then
    (Except.error "Failed to get default loopback config", st)
  else if !env.createDirOk then
    (Except.error "Failed to create audio directory", st)
  else if !env.wavCreateOk then
    (Except.error "Failed to create WAV file", st)
  else
    let path := dir ++ "/" ++ recId ++ ".wav"
    let st1 := { st with files := st.files ++ [path] }
    if !env.micBuildOk then
      (Except.error "Failed to build microphone stream", st1)
    else
      let loopActive := env.loopbackFound && env.loopBuildOk
      let st3 := { st1 with streamsBuilt :=
        st1.streamsBuilt + 1 + (if loopActive then 1 else 0) }
      if !env.micPlayOk then
        (Except.error "Failed to play mic stream", st3)
      else if loopActive && !env.loopPlayOk then
        (Except.error "Failed to play loopback stream", st3)
      else
        (Except.ok recId,
          { st3 with
            registry :=
              regInsert recId (newSession noteId recId dir loopActive)
                st3.registry })

/-- The descriptor returned by `stop_recording` (audio.rs `AudioRecording`,
lines 134-141; `duration_ms`/`recorded_at` are wall-clock readings and are
not modelled). -/
structure AudioRecording where
  id : String
  noteId : String
  filePath : String
  deriving Repr, DecidableEq

/-- Shallow embedding of `stop_recording` (audio.rs lines 675-758).  Step
order from the source: remove the session from `ACTIVE_RECORDINGS` (lines
678-681; absence is the not-found error), set the stop flag and drop the
streams, take and join the writer thread handle (lines 698, 716-723) — when
the handle is present the joined writer thread runs its own finalization
block (lines 578-587), taking the encoder and finalizing it, swallowing any
finalize error; then the stop routine's fallback (lines 725-731) takes
whatever is left of the encoder and, if it obtained it, finalizes it,
propagating a finalize failure (`finalizeOk = false`) as an error *before*
the database insert; finally the descriptor row is inserted into
`audio_recordings` (lines 745-755) and the descriptor returned. -/
def stopRecording (finalizeOk : Bool) (recId : String) (st : SysState) :
    Except String AudioRecording × SysState :=
  match regFind recId st.registry with
  | none => (Except.error ("No active recording with ID " ++ recId), st)
  | some sess =>
    let st1 := { st with registry := regErase recId st.registry }
    let encAfterJoin : Option Unit :=
      if sess.writerHandle then none else sess.encoder
    let writerFinalized : Bool :=
      sess.writerHandle && sess.encoder.isSome
    let st2 :=
      { st1 with
        finalizeEvents :=
          if writerFinalized then st1.finalizeEvents + 1
          else st1.finalizeEvents }
    match encAfterJoin with
    | some _ =>
      let st3 := { st2 with finalizeEvents := st2.finalizeEvents + 1 }
      if finalizeOk then
        (Except.ok ⟨recId, sess.noteId, sess.filePath⟩,
          { st3 with dbRows := st3.dbRows ++ [recId] })
      else
        (Except.error "Failed to finalize WAV writer on stop", st3)
    | none =>
      (Except.ok ⟨recId, sess.noteId, sess.filePath⟩,
        { st2 with dbRows := st2.dbRows ++ [recId] })

/-- True when the session's bound microphone name is absent from the current
input-device name list (audio.rs lines 96-102). -/
def micMissing (names : List String) (s : Session) : Bool :=
  !(names.contains s.micId)

/-- True when the session bound a loopback device and its name is absent
from the current input-device name list (audio.rs lines 104-113); a session
with no loopback never counts as missing. -/
def loopbackMissing (names : List String) (s : Session) : Bool :=
  match s.loopbackId with
  | some l => !(names.contains l)
  | none => false

/-- Shallow embedding of `devices_changed_callback` (audio.rs lines 42-131):
for every active session whose bound microphone name, or bound loopback name
when one was used, is no longer in the enumerated input-device names, store
`true` into that session's stop flag (lines 115-128).  Nothing else about
the session is touched: no thread is joined, no encoder is taken or
finalized, no registry entry is removed. -/
def devicesChangedCallback (names : List String)
    (reg : List (String × Session)) : List (String × Session) :=
  reg.map (fun p =>
    if micMissing names p.2 || loopbackMissing names p.2 then
      (p.1, { p.2 with stop := true })
    else p)

/-! ## Helper lemmas -/

theorem popFrame_length_lt (ch : ℕ) (xs : List ℚ) (h : xs ≠ []) :
    ((popFrame ch xs).2).length < xs.length := by
  match xs with
  | [] => exact absurd rfl h
  | [x] =>
    by_cases h1 : ch = 1 <;> simp [popFrame, h1]
  | x :: y :: rest =>
    by_cases h1 : ch = 1 <;> simp [popFrame, h1] <;> omega

theorem popFrame_length_le (ch : ℕ) (xs : List ℚ) :
    ((popFrame ch xs).2).length ≤ xs.length := by
  match xs with
  | [] => simp [popFrame]
  | [x] => by_cases h1 : ch = 1 <;> simp [popFrame, h1]
  | x :: y :: rest =>
    by_cases h1 : ch = 1 <;> simp [popFrame, h1] <;> omega

/-- Each non-exit iteration of the mixing loop consumes at least one buffered
sample in total. -/
theorem mixStep_dec (micCh : ℕ) (hasLoop : Bool) (loopCh : ℕ)
    (mic loopb : List ℚ)
    (h : ¬(mic = [] ∧ (hasLoop = false ∨ loopb = []))) :
    (popFrame micCh mic).2.length +
      (if hasLoop then popFrame loopCh loopb else ((0, 0), loopb)).2.length
      < mic.length + loopb.length := by
  by_cases hm : mic = []
  · subst hm
    have h' : ¬(hasLoop = false ∨ loopb = []) := fun hc => h ⟨rfl, hc⟩
    push_neg at h'
    have hl : hasLoop = true := by
      cases hasLoop
      · exact absurd rfl h'.1
      · rfl
    subst hl
    have hlt := popFrame_length_lt loopCh loopb h'.2
    simpa [popFrame] using hlt
  · have h1 := popFrame_length_lt micCh mic hm
    have h2 : (if hasLoop then popFrame loopCh loopb
        else ((0, 0), loopb)).2.length ≤ loopb.length := by
      cases hasLoop
      · simp
      · simpa using popFrame_length_le loopCh loopb
    omega

/-- The fuel bound used by `mixFrames` is never reached: any two fuels large
enough to cover the total number of buffered samples give the same frame
list, so the fuel-indexed embedding computes the same function as the
source's unbounded `while` loop. -/
theorem mixFramesAux_fuel_irrelevant (micCh : ℕ) (hasLoop : Bool) (loopCh : ℕ) :
    ∀ (f1 f2 : ℕ) (mic loopb : List ℚ),
      mic.length + loopb.length < f1 → mic.length + loopb.length < f2 →
      mixFramesAux micCh hasLoop loopCh f1 mic loopb
        = mixFramesAux micCh hasLoop loopCh f2 mic loopb := by
  intro f1
  induction f1 with
  | zero => intro f2 mic loopb h1 h2; omega
  | succ n ih =>
    intro f2 mic loopb h1 h2
    match f2, h2 with
    | f2 + 1, h2 =>
      rw [mixFramesAux, mixFramesAux]
      by_cases hstop : mic = [] ∧ (hasLoop = false ∨ loopb = [])
      · rw [if_pos hstop, if_pos hstop]
      · rw [if_neg hstop, if_neg hstop]
        have hdec := mixStep_dec micCh hasLoop loopCh mic loopb hstop
        have hrec := ih f2 ((popFrame micCh mic).2)
          ((if hasLoop then popFrame loopCh loopb else ((0, 0), loopb)).2)
          (by omega) (by omega)
        show _ :: mixFramesAux micCh hasLoop loopCh n (popFrame micCh mic).2
            (if hasLoop then popFrame loopCh loopb else ((0, 0), loopb)).2
          = _ :: mixFramesAux micCh hasLoop loopCh f2 (popFrame micCh mic).2
            (if hasLoop then popFrame loopCh loopb else ((0, 0), loopb)).2
        rw [hrec]

/-- A clamped sample quantizes into the representable i16 range. -/
theorem quantize_bounds (y : ℚ) (h1 : -1 ≤ y) (h2 : y ≤ 1) :
    -32768 ≤ quantizeSample y ∧ quantizeSample y ≤ 32767 := by
  unfold quantizeSample ratTrunc
  by_cases h : 0 ≤ y * 32767
  · rw [if_pos h]
    constructor
    · have hnn : (0 : ℤ) ≤ ⌊y * 32767⌋ := by
        rw [Int.le_floor]
        exact_mod_cast h
      omega
    · have hle : y * 32767 ≤ 32767 := by nlinarith
      calc ⌊y * 32767⌋ ≤ ⌊(32767 : ℚ)⌋ := Int.floor_le_floor hle
      _ = 32767 := by norm_num
  · rw [if_neg h]
    push_neg at h
    have ha : -(y * 32767) ≤ 32767 := by nlinarith
    have hb : (0 : ℚ) ≤ -(y * 32767) := by linarith
    have hub : ⌊-(y * 32767)⌋ ≤ 32767 := by
      calc ⌊-(y * 32767)⌋ ≤ ⌊(32767 : ℚ)⌋ := Int.floor_le_floor ha
      _ = 32767 := by norm_num
    have hlb : (0 : ℤ) ≤ ⌊-(y * 32767)⌋ := by
      rw [Int.le_floor]
      exact_mod_cast hb
    omega

/-- The mixed sample always lies in the clamp interval. -/
theorem mixSample_mem (a b : ℚ) : -1 ≤ mixSample a b ∧ mixSample a b ≤ 1 := by
  unfold mixSample
  exact ⟨le_min (le_max_right _ _) (by norm_num), min_le_right _ _⟩

/-- Looking up an id in a registry it was just erased from yields nothing. -/
theorem regFind_regErase (id : String) (l : List (String × Session)) :
    regFind id (regErase id l) = none := by
  induction l with
  | nil => rfl
  | cons p rest ih =>
    obtain ⟨k, v⟩ := p
    by_cases h : k = id
    · simp [regErase, h, ih]
    · simp [regErase, regFind, h, ih]

/-- The device-change callback never adds or removes registry entries; it
only rewrites session values in place. -/
theorem callback_keys (names : List String)
    (reg : List (String × Session)) :
    (devicesChangedCallback names reg).map Prod.fst = reg.map Prod.fst := by
  induction reg with
  | nil => rfl
  | cons p rest ih =>
    have hstep : devicesChangedCallback names (p :: rest)
        = (if micMissing names p.2 || loopbackMissing names p.2 then
            (p.1, { p.2 with stop := true }) else p)
          :: devicesChangedCallback names rest := rfl
    rw [hstep, List.map_cons, List.map_cons, ih]
    congr 1
    by_cases hc : (micMissing names p.2 || loopbackMissing names p.2) = true
    · rw [if_pos hc]
    · rw [if_neg hc]

/-! ## Claim C1 -/

/-- Claim C1 counterexample: a writer state whose stop flag is already set
and whose microphone ring buffer still holds the sample 1/2.  The writer
loop exits immediately: nothing is written, and the buffered sample is left
unpopped — refuting "every sample already present in the ring buffers at
that moment is still popped, mixed, and written". -/
theorem c1_counterexample :
    (writerLoop 2 true 2 5 ⟨true, [1/2], [], true, []⟩).written = [] ∧
    (writerLoop 2 true 2 5 ⟨true, [1/2], [], true, []⟩).micBuf = [1/2] ∧
    ([(1 : ℚ)/2] ≠ ([] : List ℚ)) := by
  refine ⟨rfl, rfl, by simp⟩

/-- Claim C1 (corrected): the writer loop checks the stop flag at the top of
every iteration and exits the moment it observes it true, regardless of the
ring-buffer contents: the state is returned unchanged, so samples still
buffered at that moment are neither popped, nor mixed, nor written (abrupt
truncation rather than drain-to-completion). -/
theorem c1_stop_exits_without_drain (micCh : ℕ) (hasLoop : Bool)
    (loopCh : ℕ) (fuel : ℕ) (s : WriterState) (h : s.stop = true) :
    writerLoop micCh hasLoop loopCh fuel s = s := by
  cases fuel with
  | zero => rfl
  | succ n => simp [writerLoop, h]

/-- Claim C1 witness: the corrected theorem applied to a concrete stopped
state with a non-empty microphone buffer. -/
theorem c1_witness :
    (⟨true, [(1 : ℚ)/2], [], true, []⟩ : WriterState).stop = true ∧
    writerLoop 1 false 1 3 ⟨true, [(1 : ℚ)/2], [], true, []⟩
      = ⟨true, [(1 : ℚ)/2], [], true, []⟩ :=
  ⟨rfl, c1_stop_exits_without_drain 1 false 1 3 ⟨true, [(1 : ℚ)/2], [], true, []⟩ rfl⟩

/-! ## Claim C4 -/

/-- Claim C4 counterexample: at the clamped sample 1/2 (exactly representable
in `f32`, with `0.5f32 * 32767f32 == 16383.5f32` exact), the source's
quantization `(x * 32767.0) as i16` yields 16383 (truncation toward zero),
while the spec's `round(x * 32767)` yields 16384 — so the claim's
round-to-nearest description of the code is false. -/
theorem c4_counterexample :
    quantizeSample (1/2) = 16383 ∧ specQuantizeSample (1/2) = 16384 ∧
    quantizeSample (1/2) ≠ specQuantizeSample (1/2) := by
  refine ⟨?_, ?_, ?_⟩
  · unfold quantizeSample ratTrunc
    rw [if_pos (by norm_num)]
    norm_num
  · unfold specQuantizeSample
    rw [round_eq]
    norm_num
  · unfold quantizeSample specQuantizeSample ratTrunc
    rw [if_pos (by norm_num), round_eq]
    norm_num

/-- Claim C4 (corrected): for every mixed stereo frame, each clamped sample
is quantized as `int16 = trunc(finalSample * 32767)` — truncation toward
zero (floor for non-negative values, ceiling for negative ones), not
round-to-nearest — and the left then right channel values are emitted to the
WAV encoder in that order. -/
theorem c4_quantize_truncates (l r x : ℚ) :
    frameSamples (l, r) = [quantizeSample l, quantizeSample r] ∧
    (0 ≤ x → quantizeSample x = ⌊x * 32767⌋) ∧
    (x < 0 → quantizeSample x = ⌈x * 32767⌉) := by
  refine ⟨rfl, ?_, ?_⟩
  · intro hx
    have h : (0 : ℚ) ≤ x * 32767 := by positivity
    simp [quantizeSample, ratTrunc, h]
  · intro hx
    have h : ¬ (0 : ℚ) ≤ x * 32767 := by nlinarith
    simp [quantizeSample, ratTrunc, h, Int.floor_neg]

/-- Claim C4 witness: the corrected theorem applied at the concrete frame
(1/2, -1/4), also evaluating the truncation at 1/2. -/
theorem c4_witness :
    frameSamples ((1 : ℚ)/2, -(1 : ℚ)/4)
      = [quantizeSample ((1 : ℚ)/2), quantizeSample (-(1 : ℚ)/4)] ∧
    quantizeSample ((1 : ℚ)/2) = ⌊((1 : ℚ)/2) * 32767⌋ :=
  ⟨(c4_quantize_truncates ((1 : ℚ)/2) (-(1 : ℚ)/4) ((1 : ℚ)/2)).1,
   (c4_quantize_truncates ((1 : ℚ)/2) (-(1 : ℚ)/4) ((1 : ℚ)/2)).2.1 (by norm_num)⟩

/-! ## Claim C6 -/

/-- Claim C6 (confirmed): for every pair of microphone and loopback samples
(full-scale included), the mixed sample the writer computes is exactly
`clamp(mic + loop, -1, 1)`, and its quantization always lies in the
representable 16-bit signed range — no wraparound is possible. -/
theorem c6_mix_clamps_before_quantize (m l : ℚ) :
    mixSample m l = max (-1) (min 1 (m + l)) ∧
    -32768 ≤ quantizeSample (mixSample m l) ∧
    quantizeSample (mixSample m l) ≤ 32767 := by
  have hmem := mixSample_mem m l
  have hb := quantize_bounds (mixSample m l) hmem.1 hmem.2
  refine ⟨?_, hb.1, hb.2⟩
  unfold mixSample
  rcases le_total (m + l) (-1) with h1 | h1
  · rw [max_eq_right h1, min_eq_left (by norm_num : (-1 : ℚ) ≤ 1),
      min_eq_right (le_trans h1 (by norm_num)), max_eq_left h1]
  · rcases le_total (m + l) 1 with h2 | h2
    · rw [max_eq_left h1, min_eq_left h2, min_eq_right h2, max_eq_right h1]
    · have h3 : (-1 : ℚ) ≤ m + l := le_trans (by norm_num) h2
      rw [max_eq_left h3, min_eq_right h2, min_eq_left h2,
        max_eq_right (by norm_num : (-1 : ℚ) ≤ 1)]

/-! ## Claim C7 -/

/-- Claim C7 counterexample: a 2-channel microphone source with the single
leftover sample 1/2, and an active 2-channel loopback source with samples
(3/10, 2/5).  The code produces the single frame (3/10, 2/5): the leftover
microphone sample is fully discarded, not used for the left channel — the
claim would predict a left channel of clamp(1/2 + 3/10) = 4/5. -/
theorem c7_counterexample :
    mixFrames 2 true 2 [1/2] [3/10, 2/5] = [(3/10, 2/5)] ∧
    mixSample (1/2) (3/10) = 4/5 ∧
    ((3 : ℚ)/10 ≠ 4/5) := by
  refine ⟨?_, ?_, by norm_num⟩
  · show mixFramesAux 2 true 2 4 [1/2] [3/10, 2/5] = [(3/10, 2/5)]
    rw [mixFramesAux]
    rw [if_neg (by simp)]
    show (mixSample 0 (3/10), mixSample 0 (2/5)) ::
      mixFramesAux 2 true 2 3 [] [] = [(3/10, 2/5)]
    rw [mixFramesAux, if_pos (by simp)]
    unfold mixSample
    norm_num
  · unfold mixSample
    norm_num

/-- Claim C7 (corrected): when a 2-channel source has exactly one sample left
at a frame boundary, that sample is discarded entirely — the source
contributes silence (0.0) on BOTH of its channels for that frame, its
present sample included — while the other source's contribution to the frame
is unaffected.  (The output below does not depend on the leftover microphone
sample `x` at all.) -/
theorem c7_odd_tail_discarded (x a b : ℚ) :
    mixFrames 2 true 2 [x] [a, b] = [(mixSample 0 a, mixSample 0 b)] := by
  show mixFramesAux 2 true 2 4 [x] [a, b] = [(mixSample 0 a, mixSample 0 b)]
  rw [mixFramesAux, if_neg (by simp)]
  show (mixSample 0 a, mixSample 0 b) ::
    mixFramesAux 2 true 2 3 [] [] = [(mixSample 0 a, mixSample 0 b)]
  rw [mixFramesAux, if_pos (by simp)]

/-! ## Claim C2 -/

/-- Claim C2 counterexample: the registry already holds an active session
under id "rec", yet `start_recording` for the same id returns `Ok "rec"`
rather than a duplicate-id error, re-creates (truncates) the WAV file at the
same path (a second create event for "aud/rec.wav"), and builds a second
pair of capture streams. -/
theorem c2_counterexample :
    regFind "rec"
      [("rec", (⟨"note0", "aud/rec.wav", "default-mic", none, false,
        some (), true, true, false⟩ : Session))] ≠ none ∧
    (startRecording
        ⟨true, true, true, true, true, true, true, true, true, true, true,
          true, true⟩ "note1" "rec" "aud"
        ⟨[("rec", ⟨"note0", "aud/rec.wav", "default-mic", none, false,
            some (), true, true, false⟩)],
          ["aud/rec.wav"], 2, [], 0⟩).1 = Except.ok "rec" ∧
    (startRecording
        ⟨true, true, true, true, true, true, true, true, true, true, true,
          true, true⟩ "note1" "rec" "aud"
        ⟨[("rec", ⟨"note0", "aud/rec.wav", "default-mic", none, false,
            some (), true, true, false⟩)],
          ["aud/rec.wav"], 2, [], 0⟩).2.files
      = ["aud/rec.wav", "aud/rec.wav"] ∧
    (startRecording
        ⟨true, true, true, true, true, true, true, true, true, true, true,
          true, true⟩ "note1" "rec" "aud"
        ⟨[("rec", ⟨"note0", "aud/rec.wav", "default-mic", none, false,
            some (), true, true, false⟩)],
          ["aud/rec.wav"], 2, [], 0⟩).2.streamsBuilt = 4 := by
  refine ⟨by decide, rfl, rfl, rfl⟩

/-- Claim C2 (corrected): `start_recording` performs no duplicate-id check at
all.  Called with a recording id already present in the registry (and an
environment in which every step succeeds), it still returns `Ok`, re-creates
— and thereby truncates — the output WAV file at the existing session's
path, builds a new pair of capture streams, and silently replaces the
existing registry entry with the new session. -/
theorem c2_duplicate_start_overwrites (env : StartEnv)
    (noteId recId dir : String) (st : SysState) (sess : Session)
    (henv : envAllOk env = true)
    (hdup : regFind recId st.registry = some sess) :
    (startRecording env noteId recId dir st).1 = Except.ok recId ∧
    (startRecording env noteId recId dir st).2.files
      = st.files ++ [dir ++ "/" ++ recId ++ ".wav"] ∧
    (startRecording env noteId recId dir st).2.streamsBuilt
      = st.streamsBuilt + 2 ∧
    regFind recId (startRecording env noteId recId dir st).2.registry
      = some (newSession noteId recId dir true) := by
  simp only [envAllOk, Bool.and_eq_true] at henv
  obtain ⟨⟨⟨⟨⟨⟨⟨⟨⟨⟨⟨⟨h1, h2⟩, h3⟩, h4⟩, h5⟩, h6⟩, h7⟩, h8⟩, h9⟩, h10⟩,
    h11⟩, h12⟩, h13⟩ := henv
  simp [startRecording, h1, h2, h3, h4, h5, h6, h7, h8, h9, h10, h11, h12,
    h13, regInsert, regFind]

/-- Claim C2 witness: the corrected theorem applied to a concrete registry
already holding the id "rec". -/
theorem c2_witness :
    envAllOk ⟨true, true, true, true, true, true, true, true, true, true,
      true, true, true⟩ = true ∧
    (startRecording
        ⟨true, true, true, true, true, true, true, true, true, true, true,
          true, true⟩ "note1" "rec" "aud"
        ⟨[("rec", ⟨"note0", "aud/rec.wav", "default-mic", none, false,
            some (), true, true, false⟩)],
          ["aud/rec.wav"], 2, [], 0⟩).1 = Except.ok "rec" :=
  ⟨rfl,
   (c2_duplicate_start_overwrites
      ⟨true, true, true, true, true, true, true, true, true, true, true,
        true, true⟩ "note1" "rec" "aud"
      ⟨[("rec", ⟨"note0", "aud/rec.wav", "default-mic", none, false,
          some (), true, true, false⟩)],
        ["aud/rec.wav"], 2, [], 0⟩
      ⟨"note0", "aud/rec.wav", "default-mic", none, false, some (), true,
        true, false⟩
      rfl (by decide)).1⟩

/-! ## Claim C9 -/

/-- Claim C9 counterexample: an environment in which everything succeeds
except `mic_stream.play()` (audio.rs line 592).  `start_recording` returns
an error, but only after both capture streams were already built (two
stream-build events happened before the error) — refuting "that error is
returned before any capture stream has been created". -/
theorem c9_counterexample :
    (startRecording
        ⟨true, true, true, true, true, true, true, true, true, true, true,
          false, true⟩ "note" "rec" "aud" ⟨[], [], 0, [], 0⟩).1
      = Except.error "Failed to play mic stream" ∧
    (startRecording
        ⟨true, true, true, true, true, true, true, true, true, true, true,
          false, true⟩ "note" "rec" "aud" ⟨[], [], 0, [], 0⟩).2.streamsBuilt
      = 2 := by
  exact ⟨rfl, rfl⟩

/-- Claim C9 (corrected): whenever `start_recording` returns an error the
active-recordings registry is unchanged (the session is only inserted after
every fallible step, so no partial state is visible after a failed start);
and every error other than a stream-play failure is returned before any
capture stream has been built — but a `play` failure (audio.rs lines
592-594) returns an error after the capture streams were already created. -/
theorem c9_error_leaves_registry_unchanged (env : StartEnv)
    (noteId recId dir : String) (st : SysState) (e : String)
    (herr : (startRecording env noteId recId dir st).1 = Except.error e) :
    (startRecording env noteId recId dir st).2.registry = st.registry ∧
    (env.micPlayOk = true → env.loopPlayOk = true →
      (startRecording env noteId recId dir st).2.streamsBuilt
        = st.streamsBuilt) := by
  simp only [startRecording] at herr ⊢
  by_cases h1 : (!env.enumerateOk) = true
  · rw [if_pos h1]
    exact ⟨rfl, fun _ _ => rfl⟩
  · rw [if_neg h1] at herr ⊢
    by_cases h2 : (!env.anyInputDevice) = true
    · rw [if_pos h2]
      exact ⟨rfl, fun _ _ => rfl⟩
    · rw [if_neg h2] at herr ⊢
      by_cases h3 : (!env.defaultMicSome) = true
      · rw [if_pos h3]
        exact ⟨rfl, fun _ _ => rfl⟩
      · rw [if_neg h3] at herr ⊢
        by_cases h4 : (!env.micNameOk) = true
        · rw [if_pos h4]
          exact ⟨rfl, fun _ _ => rfl⟩
        · rw [if_neg h4] at herr ⊢
          by_cases h5 : (!env.micConfigOk) = true
          · rw [if_pos h5]
            exact ⟨rfl, fun _ _ => rfl⟩
          · rw [if_neg h5] at herr ⊢
            by_cases h6 : (env.loopbackFound && !env.loopConfigOk) = true
            · rw [if_pos h6]
              exact ⟨rfl, fun _ _ => rfl⟩
            · rw [if_neg h6] at herr ⊢
              by_cases h7 : (!env.createDirOk) = true
              · rw [if_pos h7]
                exact ⟨rfl, fun _ _ => rfl⟩
              · rw [if_neg h7] at herr ⊢
                by_cases h8 : (!env.wavCreateOk) = true
                · rw [if_pos h8]
                  exact ⟨rfl, fun _ _ => rfl⟩
                · rw [if_neg h8] at herr ⊢
                  by_cases h9 : (!env.micBuildOk) = true
                  · rw [if_pos h9]
                    exact ⟨rfl, fun _ _ => rfl⟩
                  · rw [if_neg h9] at herr ⊢
                    by_cases h10 : (!env.micPlayOk) = true
                    · rw [if_pos h10]
                      refine ⟨rfl, fun hm _ => ?_⟩
                      rw [hm] at h10
                      simp at h10
                    · rw [if_neg h10] at herr ⊢
                      by_cases h11 :
                          (env.loopbackFound && env.loopBuildOk
                            && !env.loopPlayOk) = true
                      · rw [if_pos h11]
                        refine ⟨rfl, fun _ hl => ?_⟩
                        rw [hl] at h11
                        simp at h11
                      · rw [if_neg h11] at herr
                        simp at herr

/-- Claim C9 witness: the corrected theorem applied to an environment whose
device enumeration fails. -/
theorem c9_witness :
    (startRecording ⟨false, true, true, true, true, true, true, true, true,
        true, true, true, true⟩ "note" "rec" "aud"
        ⟨[], [], 0, [], 0⟩).2.registry = [] ∧
    (startRecording ⟨false, true, true, true, true, true, true, true, true,
        true, true, true, true⟩ "note" "rec" "aud"
        ⟨[], [], 0, [], 0⟩).2.streamsBuilt = 0 := by
  have h := c9_error_leaves_registry_unchanged
    ⟨false, true, true, true, true, true, true, true, true, true, true,
      true, true⟩ "note" "rec" "aud" ⟨[], [], 0, [], 0⟩
    "Failed to enumerate input devices" rfl
  exact ⟨h.1, h.2 rfl rfl⟩

/-! ## Claim C3 -/

/-- Claim C3 counterexample: a successful `stop_recording` on an active
session inserts a row for the recording into the `audio_recordings`
database table itself (audio.rs lines 745-755) — refuting "the engine itself
performs no database write in any of its operations". -/
theorem c3_counterexample :
    (stopRecording true "rec"
      ⟨[("rec", ⟨"note0", "aud/rec.wav", "default-mic", none, false,
          some (), true, true, false⟩)],
        ["aud/rec.wav"], 2, [], 0⟩).2.dbRows = ["rec"] ∧
    (["rec"] : List String) ≠ [] := by
  exact ⟨rfl, by simp⟩

/-- Claim C3 (corrected): a successful `stop_recording` does return the
finished-recording descriptor to its caller, but the engine also performs a
database write itself: it executes the `INSERT INTO audio_recordings` for
the descriptor on the connection it was handed, before returning. -/
theorem c3_stop_inserts_db_row (finalizeOk : Bool) (recId : String)
    (st : SysState) (sess : Session)
    (hfind : regFind recId st.registry = some sess)
    (hw : sess.writerHandle = true) :
    (stopRecording finalizeOk recId st).1
      = Except.ok ⟨recId, sess.noteId, sess.filePath⟩ ∧
    (stopRecording finalizeOk recId st).2.dbRows = st.dbRows ++ [recId] := by
  simp [stopRecording, hfind, hw]

/-- Claim C3 witness: the corrected theorem applied to a concrete active
session. -/
theorem c3_witness :
    (stopRecording true "rec"
      ⟨[("rec", ⟨"note0", "aud/rec.wav", "default-mic", none, false,
          some (), true, true, false⟩)],
        ["aud/rec.wav"], 2, [], 0⟩).1
      = Except.ok ⟨"rec", "note0", "aud/rec.wav"⟩ ∧
    (stopRecording true "rec"
      ⟨[("rec", ⟨"note0", "aud/rec.wav", "default-mic", none, false,
          some (), true, true, false⟩)],
        ["aud/rec.wav"], 2, [], 0⟩).2.dbRows = [] ++ ["rec"] :=
  c3_stop_inserts_db_row true "rec"
    ⟨[("rec", ⟨"note0", "aud/rec.wav", "default-mic", none, false,
        some (), true, true, false⟩)],
      ["aud/rec.wav"], 2, [], 0⟩
    ⟨"note0", "aud/rec.wav", "default-mic", none, false, some (), true,
      true, false⟩
    (by decide) rfl

/-! ## Claim C5 -/

/-- Claim C5 (confirmed): stopping the same id twice returns the not-found
error the second time (the session is removed from the registry by the first
call, on every path through it); and the encoder is finalized exactly once
when it was present — the writer thread's finalization on join and the stop
routine's fallback both `take` the shared `Option`, so whichever runs first
consumes it and the other sees `none` and does nothing. -/
theorem c5_stop_twice_finalize_once (fOk1 fOk2 : Bool) (recId : String)
    (st : SysState) (sess : Session)
    (hfind : regFind recId st.registry = some sess) :
    (stopRecording fOk2 recId (stopRecording fOk1 recId st).2).1
      = Except.error ("No active recording with ID " ++ recId) ∧
    (sess.encoder = some () →
      (stopRecording fOk1 recId st).2.finalizeEvents
        = st.finalizeEvents + 1) ∧
    (sess.encoder = none →
      (stopRecording fOk1 recId st).2.finalizeEvents = st.finalizeEvents) := by
  have hreg : (stopRecording fOk1 recId st).2.registry
      = regErase recId st.registry := by
    cases hw : sess.writerHandle <;> rcases henc : sess.encoder with _ | ⟨⟩ <;>
      cases fOk1 <;> simp [stopRecording, hfind, hw, henc]
  refine ⟨?_, ?_, ?_⟩
  · have h2 : regFind recId (stopRecording fOk1 recId st).2.registry = none := by
      rw [hreg]
      exact regFind_regErase recId st.registry
    set st1 := (stopRecording fOk1 recId st).2 with hst1
    simp [stopRecording, h2]
  · intro henc
    cases hw : sess.writerHandle <;> cases fOk1 <;>
      simp [stopRecording, hfind, hw, henc]
  · intro henc
    cases hw : sess.writerHandle <;> cases fOk1 <;>
      simp [stopRecording, hfind, hw, henc]

/-- Claim C5 witness: the theorem applied to a concrete registry with one
active session whose encoder is present; the double stop errors and exactly
one finalize event is recorded. -/
theorem c5_witness :
    (stopRecording true "rec"
      (stopRecording true "rec"
        ⟨[("rec", ⟨"note0", "aud/rec.wav", "default-mic", none, false,
            some (), true, true, false⟩)],
          ["aud/rec.wav"], 2, [], 0⟩).2).1
      = Except.error ("No active recording with ID " ++ "rec") ∧
    (stopRecording true "rec"
      ⟨[("rec", ⟨"note0", "aud/rec.wav", "default-mic", none, false,
          some (), true, true, false⟩)],
        ["aud/rec.wav"], 2, [], 0⟩).2.finalizeEvents = 0 + 1 :=
  ⟨(c5_stop_twice_finalize_once true true "rec"
      ⟨[("rec", ⟨"note0", "aud/rec.wav", "default-mic", none, false,
          some (), true, true, false⟩)],
        ["aud/rec.wav"], 2, [], 0⟩
      ⟨"note0", "aud/rec.wav", "default-mic", none, false, some (), true,
        true, false⟩ (by decide)).1,
   (c5_stop_twice_finalize_once true true "rec"
      ⟨[("rec", ⟨"note0", "aud/rec.wav", "default-mic", none, false,
          some (), true, true, false⟩)],
        ["aud/rec.wav"], 2, [], 0⟩
      ⟨"note0", "aud/rec.wav", "default-mic", none, false, some (), true,
        true, false⟩ (by decide)).2.1 rfl⟩

/-! ## Claim C10 -/

/-- Claim C10 (confirmed): when the stop routine's fallback finalization
fails (writer thread never took the encoder, and `finalize` errors), the
session was already removed from the registry before the error is returned,
no `audio_recordings` row is inserted, and a subsequent `stop_recording`
with the same id returns the not-found error — the removal is not rolled
back. -/
theorem c10_finalize_error_not_rolled_back (fOk2 : Bool) (recId : String)
    (st : SysState) (sess : Session)
    (hfind : regFind recId st.registry = some sess)
    (hw : sess.writerHandle = false)
    (henc : sess.encoder = some ()) :
    (stopRecording false recId st).1
      = Except.error "Failed to finalize WAV writer on stop" ∧
    regFind recId (stopRecording false recId st).2.registry = none ∧
    (stopRecording false recId st).2.dbRows = st.dbRows ∧
    (stopRecording fOk2 recId (stopRecording false recId st).2).1
      = Except.error ("No active recording with ID " ++ recId) := by
  have hmain : (stopRecording false recId st).2.registry
      = regErase recId st.registry := by
    simp [stopRecording, hfind, hw, henc]
  have hnone : regFind recId (stopRecording false recId st).2.registry
      = none := by
    rw [hmain]
    exact regFind_regErase recId st.registry
  refine ⟨?_, hnone, ?_, ?_⟩
  · simp [stopRecording, hfind, hw, henc]
  · simp [stopRecording, hfind, hw, henc]
  · set st1 := (stopRecording false recId st).2 with hst1
    simp [stopRecording, hnone]

/-- Claim C10 witness: the theorem applied to a concrete session whose
writer thread handle is absent and whose encoder is still present, with a
failing finalize. -/
theorem c10_witness :
    (stopRecording false "rec"
      ⟨[("rec", ⟨"note0", "aud/rec.wav", "default-mic", none, false,
          some (), false, true, false⟩)],
        ["aud/rec.wav"], 2, [], 0⟩).1
      = Except.error "Failed to finalize WAV writer on stop" ∧
    (stopRecording false "rec"
      ⟨[("rec", ⟨"note0", "aud/rec.wav", "default-mic", none, false,
          some (), false, true, false⟩)],
        ["aud/rec.wav"], 2, [], 0⟩).2.dbRows = [] :=
  ⟨(c10_finalize_error_not_rolled_back true "rec"
      ⟨[("rec", ⟨"note0", "aud/rec.wav", "default-mic", none, false,
          some (), false, true, false⟩)],
        ["aud/rec.wav"], 2, [], 0⟩
      ⟨"note0", "aud/rec.wav", "default-mic", none, false, some (), false,
        true, false⟩ (by decide) rfl rfl).1,
   (c10_finalize_error_not_rolled_back true "rec"
      ⟨[("rec", ⟨"note0", "aud/rec.wav", "default-mic", none, false,
          some (), false, true, false⟩)],
        ["aud/rec.wav"], 2, [], 0⟩
      ⟨"note0", "aud/rec.wav", "default-mic", none, false, some (), false,
        true, false⟩ (by decide) rfl rfl).2.2.1⟩

/-! ## Claim C8 -/

/-- Claim C8 (confirmed): when the device-change callback runs with a
current input-device name list that misses a session's bound microphone
name, or misses its bound loopback name when one was used, that session's
stop flag is set to true and nothing else about the session changes — in
particular its writer-thread handle is not joined/taken and its encoder is
not taken or finalized — and no registry entry is added or removed. -/
theorem c8_watchdog_sets_stop_flag (names : List String)
    (reg : List (String × Session)) (id : String) (sess : Session)
    (hfind : regFind id reg = some sess)
    (hmiss : (micMissing names sess || loopbackMissing names sess) = true) :
    regFind id (devicesChangedCallback names reg)
      = some { sess with stop := true } ∧
    (devicesChangedCallback names reg).map Prod.fst = reg.map Prod.fst ∧
    ({ sess with stop := true }).encoder = sess.encoder ∧
    ({ sess with stop := true }).writerHandle = sess.writerHandle := by
  refine ⟨?_, callback_keys names reg, rfl, rfl⟩
  induction reg with
  | nil => exact absurd hfind (by simp [regFind])
  | cons p rest ih =>
    obtain ⟨k, v⟩ := p
    have hstep : devicesChangedCallback names ((k, v) :: rest)
        = (if micMissing names v || loopbackMissing names v then
            (k, { v with stop := true }) else (k, v))
          :: devicesChangedCallback names rest := rfl
    rw [hstep]
    by_cases hk : k = id
    · have hv : v = sess := by
        have : regFind id ((k, v) :: rest) = some v := by
          simp [regFind, hk]
        rw [this] at hfind
        exact Option.some.inj hfind
      subst hv
      rw [if_pos hmiss]
      simp [regFind, hk]
    · have hrest : regFind id rest = some sess := by
        simpa [regFind, hk] using hfind
      by_cases hc : (micMissing names v || loopbackMissing names v) = true
      · rw [if_pos hc]
        simp [regFind, hk]
        exact ih hrest
      · rw [if_neg hc]
        simp [regFind, hk]
        exact ih hrest

/-- Claim C8 witness: the theorem applied to a registry with one session
bound to microphone "USB Mic" while the current device list only contains
"Other Mic": the callback output holds the session with its stop flag
true. -/
theorem c8_witness :
    regFind "rec" (devicesChangedCallback ["Other Mic"]
      [("rec", ⟨"note0", "aud/rec.wav", "USB Mic", none, false, some (),
        true, true, false⟩)])
      = some ⟨"note0", "aud/rec.wav", "USB Mic", none, true, some (),
        true, true, false⟩ :=
  (c8_watchdog_sets_stop_flag ["Other Mic"]
    [("rec", ⟨"note0", "aud/rec.wav", "USB Mic", none, false, some (),
      true, true, false⟩)] "rec"
    ⟨"note0", "aud/rec.wav", "USB Mic", none, false, some (), true, true,
      false⟩ (by decide) (by decide)).1
